import Mathlib

/-!
Shallow embedding of the BCM2835 GPIO/pinctrl driver
(drivers/pinctrl/bcm/pinctrl_bcm2835_rust.rs) and proofs about its
register addressing, function-select protocol and chip operations.

The driver state is the optional register window (present while the
device is attached).  Register accesses are modelled as an explicit
event trace; the fallible MMIO accessors of the kernel crate
(IoMem::try_readl / IoMem::try_writel, which are not part of this
repository checkout) are modelled from the spec with a fault oracle
per state.  Machine words are Nat with explicit reduction mod 2^32
exactly where the Rust u32 arithmetic can wrap.
-/

namespace BCM2835

/-- GPIO register byte offsets, constants from the driver source. -/
def GPFSEL0 : Nat := 0x0

def GPSET0 : Nat := 0x1c

def GPCLR0 : Nat := 0x28

def GPLEV0 : Nat := 0x34

def GPIO_SIZE : Nat := 0x1000

def BCM2835_NUM_GPIOS : Nat := 54

def BCM2835_FSEL_MASK : Nat := 0x7

def BCM2835_FSEL_GPIO_IN : Nat := 0

def BCM2835_FSEL_GPIO_OUT : Nat := 1

/-- FSEL_REG macro: byte offset of the function-select word of a pin. -/
def FSEL_REG (p : Nat) : Nat := GPFSEL0 + p / 10 * 4

/-- FSEL_SHIFT macro: bit shift of the 3-bit field of a pin inside its word. -/
def FSEL_SHIFT (p : Nat) : Nat := p % 10 * 3

/-- GPIO_REG_OFFSET macro: word index of a pin in a bank register family. -/
def GPIO_REG_OFFSET (p : Nat) : Nat := p / 32

/-- GPIO_REG_SHIFT macro: bit position of a pin inside its bank word. -/
def GPIO_REG_SHIFT (p : Nat) : Nat := p % 32

/-- Modulus of the u32 machine words used by the registers. -/
def U32_MOD : Nat := 2 ^ 32

abbrev Errno := Nat

def ENXIO : Errno := 6

def EINVAL : Errno := 22

def ENOTSUPP : Errno := 524

/-- One hardware-level access to the register window. -/
inductive Event where
  | read (off : Nat)
  | write (off : Nat) (val : Nat)

deriving instance DecidableEq for Event

/-- The mapped register window plus a fault oracle for its accessors
(some e means the next access of that kind fails with e). -/
structure IoMemState where
  regs : Nat → Nat
  readErr : Option Errno
  writeErr : Option Errno

/-- Device data: the optional resources (register window), as held by
the device::Data wrapper; resources are absent once the device is
unbound. -/
structure DeviceData where
  resources : Option IoMemState

/-- Write one word of the register file. -/
def IoMemState.upd (m : IoMemState) (off v : Nat) : IoMemState :=
  ⟨fun r => if r = off then v else m.regs r, m.readErr, m.writeErr⟩

/-- Modelled from the spec: IoMem::try_readl of the kernel crate (not
under src/), a bounds-checked word-granular fallible MMIO read; the
readErr oracle models the I/O-fault failure mode of spec section 7. -/
def try_readl (m : IoMemState) (off : Nat) : Except Errno Nat × List Event :=
  if off + 4 ≤ GPIO_SIZE then
    match m.readErr with
    | some e => (Except.error e, [])
    | none => (Except.ok (m.regs off), [Event.read off])
  else (Except.error EINVAL, [])

/-- Modelled from the spec: IoMem::try_writel of the kernel crate (not
under src/), a bounds-checked word-granular fallible MMIO write; the
writeErr oracle models the I/O-fault failure mode of spec section 7. -/
def try_writel (m : IoMemState) (v off : Nat) : Except Errno Unit × IoMemState × List Event :=
  if off + 4 ≤ GPIO_SIZE then
    match m.writeErr with
    | some e => (Except.error e, m, [])
    | none => (Except.ok (), m.upd off v, [Event.write off v])
  else (Except.error EINVAL, m, [])

/-- bcm2835_gpio_rd: check the resources, then read one register word. -/
def bcm2835_gpio_rd (data : DeviceData) (reg : Nat) :
    Except Errno Nat × DeviceData × List Event :=
  match data.resources with
  | none => (Except.error ENXIO, data, [])
  | some m =>
    match try_readl m reg with
    | (r, ev) => (r, data, ev)

/-- bcm2835_gpio_wr: check the resources, then write one register word. -/
def bcm2835_gpio_wr (data : DeviceData) (reg val : Nat) :
    Except Errno Unit × DeviceData × List Event :=
  match data.resources with
  | none => (Except.error ENXIO, data, [])
  | some m =>
    match try_writel m val reg with
    | (r, m2, ev) => (r, ⟨some m2⟩, ev)

/-- bcm2835_gpio_get_bit: read the bank word of a pin and extract its bit. -/
def bcm2835_gpio_get_bit (data : DeviceData) (reg off : Nat) :
    Except Errno Bool × DeviceData × List Event :=
  match bcm2835_gpio_rd data (reg + GPIO_REG_OFFSET off * 4) with
  | (Except.error e, d1, ev) => (Except.error e, d1, ev)
  | (Except.ok v, d1, ev) => (Except.ok (((v >>> GPIO_REG_SHIFT off) &&& 1) != 0), d1, ev)

/-- bcm2835_gpio_set_bit: write the single bit of a pin into a bank register. -/
def bcm2835_gpio_set_bit (data : DeviceData) (reg off : Nat) :
    Except Errno Unit × DeviceData × List Event :=
  bcm2835_gpio_wr data (reg + GPIO_REG_OFFSET off * 4) (1 <<< GPIO_REG_SHIFT off)

/-- Extraction of the 3-bit function-select field of a pin from a register
word, as done inline by the driver. -/
def fselField (w p : Nat) : Nat := (w >>> FSEL_SHIFT p) &&& BCM2835_FSEL_MASK

/-- Complement on u32, the Rust bitwise-not of a word below 2^32. -/
def u32compl (x : Nat) : Nat := (U32_MOD - 1) ^^^ x

/-- The read-modify-write word update done by fsel_set: clear the 3-bit
field of the pin and OR in the code at its shift (the shifted code is
reduced mod 2^32 exactly as the Rust u32 shift truncates). -/
def fsel_insert (w p f : Nat) : Nat :=
  (w &&& u32compl (BCM2835_FSEL_MASK <<< FSEL_SHIFT p)) ||| ((f <<< FSEL_SHIFT p) % U32_MOD)

/-- bcm2835_pinctrl_fsel_get: read the function-select word of a pin and
extract its 3-bit code. -/
def bcm2835_pinctrl_fsel_get (data : DeviceData) (pin : Nat) :
    Except Errno Nat × DeviceData × List Event :=
  match bcm2835_gpio_rd data (FSEL_REG pin) with
  | (Except.error e, d1, ev) => (Except.error e, d1, ev)
  | (Except.ok v, d1, ev) => (Except.ok (fselField v pin), d1, ev)

/-- bcm2835_pinctrl_fsel_set: the function-select transition of the
driver, translated match-for-match from the source: read the word; if
the current code equals the requested one, stop; if both current and
requested code are nonzero, do an intermediate write (the source
inserts fsel, the requested code, in that write too); finally insert
the requested code and write. -/
def bcm2835_pinctrl_fsel_set (data : DeviceData) (pin fsel : Nat) :
    Except Errno Unit × DeviceData × List Event :=
  match bcm2835_gpio_rd data (FSEL_REG pin) with
  | (Except.error e, d1, ev1) => (Except.error e, d1, ev1)
  | (Except.ok val0, d1, ev1) =>
    if fselField val0 pin = fsel then (Except.ok (), d1, ev1)
    else
      if fselField val0 pin ≠ BCM2835_FSEL_GPIO_IN ∧ fsel ≠ BCM2835_FSEL_GPIO_IN then
        match bcm2835_gpio_wr d1 (FSEL_REG pin) (fsel_insert val0 pin fsel) with
        | (Except.error e, d2, ev2) => (Except.error e, d2, ev1 ++ ev2)
        | (Except.ok _, d2, ev2) =>
          match
            bcm2835_gpio_wr d2 (FSEL_REG pin)
              (fsel_insert (fsel_insert val0 pin fsel) pin fsel) with
          | (Except.error e, d3, ev3) => (Except.error e, d3, ev1 ++ ev2 ++ ev3)
          | (Except.ok _, d3, ev3) => (Except.ok (), d3, ev1 ++ ev2 ++ ev3)
      else
        match bcm2835_gpio_wr d1 (FSEL_REG pin) (fsel_insert val0 pin fsel) with
        | (Except.error e, d2, ev2) => (Except.error e, d2, ev1 ++ ev2)
        | (Except.ok _, d2, ev2) => (Except.ok (), d2, ev1 ++ ev2)

/-- gpio::LineDirection of the kernel crate. -/
inductive LineDirection where
  | In
  | Out

deriving instance DecidableEq for LineDirection

/-- get_direction of the gpio::Chip implementation. -/
def get_direction (data : DeviceData) (off : Nat) :
    Except Errno LineDirection × DeviceData × List Event :=
  match bcm2835_pinctrl_fsel_get data off with
  | (Except.error e, d1, ev) => (Except.error e, d1, ev)
  | (Except.ok fsel, d1, ev) =>
    if fsel > BCM2835_FSEL_GPIO_OUT then (Except.error ENOTSUPP, d1, ev)
    else
      if fsel = BCM2835_FSEL_GPIO_IN then (Except.ok LineDirection.In, d1, ev)
      else (Except.ok LineDirection.Out, d1, ev)

/-- direction_input of the gpio::Chip implementation. -/
def direction_input (data : DeviceData) (off : Nat) :
    Except Errno Unit × DeviceData × List Event :=
  bcm2835_pinctrl_fsel_set data off BCM2835_FSEL_GPIO_IN

/-- direction_output of the gpio::Chip implementation: write the level
bit first, then select the output function. -/
def direction_output (data : DeviceData) (off : Nat) (value : Bool) :
    Except Errno Unit × DeviceData × List Event :=
  match bcm2835_gpio_set_bit data (if value then GPSET0 else GPCLR0) off with
  | (Except.error e, d1, ev1) => (Except.error e, d1, ev1)
  | (Except.ok _, d1, ev1) =>
    match bcm2835_pinctrl_fsel_set d1 off BCM2835_FSEL_GPIO_OUT with
    | (r, d2, ev2) => (r, d2, ev1 ++ ev2)

/-- set of the gpio::Chip implementation, translated as written in the
source: it calls bcm2835_pinctrl_fsel_set with the bank register offset
in the pin position and the pin in the code position, and discards the
result (the callback returns nothing). -/
def set (data : DeviceData) (off : Nat) (value : Bool) : DeviceData × List Event :=
  match bcm2835_pinctrl_fsel_set data (if value then GPSET0 else GPCLR0) off with
  | (_, d1, ev1) => (d1, ev1)

/-- get of the gpio::Chip implementation: read the level bit. -/
def get (data : DeviceData) (off : Nat) : Except Errno Bool × DeviceData × List Event :=
  bcm2835_gpio_get_bit data GPLEV0 off

/-- Modelled from the spec: set_level as specified in section 4.4 -
write a single bit to the set or clear register per level, via the bank
addressing scheme, reporting errors of the underlying write.  This is
the specified intended behavior, kept beside the source translation
set above for comparison. -/
def spec_set_level (data : DeviceData) (off : Nat) (value : Bool) :
    Except Errno Unit × DeviceData × List Event :=
  bcm2835_gpio_set_bit data (if value then GPSET0 else GPCLR0) off

/-- Result component of a driver operation. -/
def resOf {α : Type} (t : Except Errno α × DeviceData × List Event) : Except Errno α := t.1

/-- State component of a driver operation. -/
def stateOf {α : Type} (t : Except Errno α × DeviceData × List Event) : DeviceData := t.2.1

/-- Trace component of a driver operation. -/
def traceOf {α : Type} (t : Except Errno α × DeviceData × List Event) : List Event := t.2.2

/-- Register word currently held at a byte offset (0 when detached). -/
def DeviceData.reg (d : DeviceData) (off : Nat) : Nat :=
  match d.resources with
  | none => 0
  | some m => m.regs off

/-- The write accesses of a trace, as offset-value pairs. -/
def writeEvents (l : List Event) : List (Nat × Nat) :=
  l.filterMap fun e =>
    match e with
    | Event.read _ => none
    | Event.write o v => some (o, v)

/-- Whether every write access of a trace goes to the one given offset. -/
def writesOnlyTo (off : Nat) : List Event → Bool
  | [] => true
  | Event.read _ :: rest => writesOnlyTo off rest
  | Event.write o _ :: rest => decide (o = off) && writesOnlyTo off rest

/-- All-zero register file with no injected faults. -/
def ioZero : IoMemState := ⟨fun _ => 0, none, none⟩

/-- Attached device over the all-zero register file. -/
def devZero : DeviceData := ⟨some ioZero⟩

/-- Register file whose words all read 0x7 (pin 0 at function Alt3). -/
def ioAlt : IoMemState := ⟨fun _ => 7, none, none⟩

/-- Attached device over the ioAlt register file. -/
def devAlt : DeviceData := ⟨some ioAlt⟩

/-- All-zero register file whose writes fail with error code 5. -/
def ioWriteFail : IoMemState := ⟨fun _ => 0, none, some 5⟩

/-- Attached device over the ioWriteFail register file. -/
def devWriteFail : DeviceData := ⟨some ioWriteFail⟩

/-- Detached device: the register window is absent. -/
def devAbsent : DeviceData := ⟨none⟩

/-! Arithmetic facts about the address codec and the field update. -/

theorem FSEL_SHIFT_le (p : Nat) : FSEL_SHIFT p ≤ 27 := by
  have h : p % 10 < 10 := Nat.mod_lt _ (by decide)
  simp only [FSEL_SHIFT]
  omega

theorem shiftLeft_small (f p : Nat) (hf : f < 8) : f <<< FSEL_SHIFT p < U32_MOD := by
  have h1 : FSEL_SHIFT p ≤ 27 := FSEL_SHIFT_le p
  rw [Nat.shiftLeft_eq]
  calc f * 2 ^ FSEL_SHIFT p ≤ 7 * 2 ^ 27 :=
        Nat.mul_le_mul (by omega) (Nat.pow_le_pow_right (by decide) h1)
    _ < U32_MOD := by decide

theorem insert_extract_aux (w f s : Nat) (hf : f < 8) (hs : s ≤ 27) :
    ((w &&& ((2 ^ 32 - 1) ^^^ (7 <<< s)) ||| f <<< s) >>> s) &&& 7 = f := by
  have h7 : (7 : Nat) = 2 ^ 3 - 1 := by decide
  apply Nat.eq_of_testBit_eq
  intro i
  rw [h7]
  simp only [Nat.testBit_and, Nat.testBit_or, Nat.testBit_xor, Nat.testBit_shiftLeft,
    Nat.testBit_shiftRight, Nat.testBit_two_pow_sub_one]
  by_cases hi : i < 3
  · have h1 : s + i < 32 := by omega
    have h2 : s ≤ s + i := Nat.le_add_right s i
    simp [h1, h2, hi, Nat.add_sub_cancel_left]
  · have hfi : f.testBit i = false :=
      Nat.testBit_lt_two_pow (lt_of_lt_of_le hf (by
        have h8 : (8 : Nat) = 2 ^ 3 := by decide
        rw [h8]
        exact Nat.pow_le_pow_right (by decide) (by omega)))
    simp [hi, hfi]

theorem insert_frame_aux (w f s : Nat) (hf : f < 8) (hs : s ≤ 27) :
    (w &&& ((2 ^ 32 - 1) ^^^ (7 <<< s)) ||| f <<< s) &&& ((2 ^ 32 - 1) ^^^ (7 <<< s)) =
      w &&& ((2 ^ 32 - 1) ^^^ (7 <<< s)) := by
  have h7 : (7 : Nat) = 2 ^ 3 - 1 := by decide
  apply Nat.eq_of_testBit_eq
  intro i
  rw [h7]
  simp only [Nat.testBit_and, Nat.testBit_or, Nat.testBit_xor, Nat.testBit_shiftLeft,
    Nat.testBit_two_pow_sub_one]
  by_cases hsi : s ≤ i
  · by_cases hf3 : f.testBit (i - s) = true
    · have h3 : i - s < 3 := by
        by_contra h
        have : f.testBit (i - s) = false :=
          Nat.testBit_lt_two_pow (lt_of_lt_of_le hf (by
            have h8 : (8 : Nat) = 2 ^ 3 := by decide
            rw [h8]
            exact Nat.pow_le_pow_right (by decide) (by omega)))
        simp [this] at hf3
      have h32 : i < 32 := by omega
      simp [hsi, hf3, h3, h32]
    · simp only [Bool.not_eq_true] at hf3
      simp [hf3]
  · simp [hsi]

theorem fselField_fsel_insert (w p f : Nat) (hf : f < 8) :
    fselField (fsel_insert w p f) p = f := by
  have hmod : (f <<< FSEL_SHIFT p) % 2 ^ 32 = f <<< FSEL_SHIFT p :=
    Nat.mod_eq_of_lt (shiftLeft_small f p hf)
  simp only [fselField, fsel_insert, u32compl, BCM2835_FSEL_MASK, U32_MOD, hmod]
  exact insert_extract_aux w f (FSEL_SHIFT p) hf (FSEL_SHIFT_le p)

theorem masked_fsel_insert (w p f : Nat) (hf : f < 8) :
    fsel_insert w p f &&& u32compl (BCM2835_FSEL_MASK <<< FSEL_SHIFT p) =
      w &&& u32compl (BCM2835_FSEL_MASK <<< FSEL_SHIFT p) := by
  have hmod : (f <<< FSEL_SHIFT p) % 2 ^ 32 = f <<< FSEL_SHIFT p :=
    Nat.mod_eq_of_lt (shiftLeft_small f p hf)
  simp only [fsel_insert, u32compl, BCM2835_FSEL_MASK, U32_MOD, hmod]
  exact insert_frame_aux w f (FSEL_SHIFT p) hf (FSEL_SHIFT_le p)

theorem FSEL_REG_bound (pin : Nat) (hp : pin < 54) : FSEL_REG pin + 4 ≤ GPIO_SIZE := by
  simp only [FSEL_REG, GPFSEL0, GPIO_SIZE]
  omega

/-- Characterization of a fault-free run of bcm2835_pinctrl_fsel_set on
an attached device whose function-select word is in bounds: the no-op
path does one read, the two-active-functions path does one read and two
writes, every other transition does one read and one write. -/
theorem fsel_set_run (m : IoMemState) (pin fsel : Nat)
    (hb : FSEL_REG pin + 4 ≤ GPIO_SIZE) (hre : m.readErr = none) (hwe : m.writeErr = none) :
    bcm2835_pinctrl_fsel_set ⟨some m⟩ pin fsel =
      if fselField (m.regs (FSEL_REG pin)) pin = fsel then
        (Except.ok (), ⟨some m⟩, [Event.read (FSEL_REG pin)])
      else
        if fselField (m.regs (FSEL_REG pin)) pin ≠ BCM2835_FSEL_GPIO_IN ∧
            fsel ≠ BCM2835_FSEL_GPIO_IN then
          (Except.ok (),
            ⟨some ((m.upd (FSEL_REG pin) (fsel_insert (m.regs (FSEL_REG pin)) pin fsel)).upd
              (FSEL_REG pin)
              (fsel_insert (fsel_insert (m.regs (FSEL_REG pin)) pin fsel) pin fsel))⟩,
            [Event.read (FSEL_REG pin),
              Event.write (FSEL_REG pin) (fsel_insert (m.regs (FSEL_REG pin)) pin fsel),
              Event.write (FSEL_REG pin)
                (fsel_insert (fsel_insert (m.regs (FSEL_REG pin)) pin fsel) pin fsel)])
        else
          (Except.ok (),
            ⟨some (m.upd (FSEL_REG pin) (fsel_insert (m.regs (FSEL_REG pin)) pin fsel))⟩,
            [Event.read (FSEL_REG pin),
              Event.write (FSEL_REG pin) (fsel_insert (m.regs (FSEL_REG pin)) pin fsel)]) := by
  simp only [bcm2835_pinctrl_fsel_set, bcm2835_gpio_rd, bcm2835_gpio_wr, try_readl,
    try_writel, IoMemState.upd, hre, hwe, if_pos hb]
  by_cases h1 : fselField (m.regs (FSEL_REG pin)) pin = fsel
  · simp [h1]
  · by_cases h2 : fselField (m.regs (FSEL_REG pin)) pin ≠ BCM2835_FSEL_GPIO_IN ∧
        fsel ≠ BCM2835_FSEL_GPIO_IN
    · simp [h1, h2, IoMemState.upd, hwe, if_pos hb]
    · simp [h1, h2, IoMemState.upd, hwe, if_pos hb]

/-- C4: for every pin below 54 the function-select address is
GPFSEL0 + (pin/10)*4, word aligned, with shift (pin%10)*3 a multiple
of 3 no larger than 27; each bank address is base + (pin/32)*4 with
shift pin%32 below 32; and no computed offset reaches GPIO_SIZE. -/
theorem address_codec_bounds (pin : Nat) (hp : pin < 54) :
    FSEL_REG pin = GPFSEL0 + pin / 10 * 4 ∧
    FSEL_REG pin % 4 = 0 ∧
    FSEL_SHIFT pin = pin % 10 * 3 ∧
    FSEL_SHIFT pin % 3 = 0 ∧
    FSEL_SHIFT pin ≤ 27 ∧
    GPIO_REG_SHIFT pin = pin % 32 ∧
    GPIO_REG_SHIFT pin < 32 ∧
    FSEL_REG pin < GPIO_SIZE ∧
    GPSET0 + GPIO_REG_OFFSET pin * 4 = GPSET0 + pin / 32 * 4 ∧
    GPSET0 + GPIO_REG_OFFSET pin * 4 < GPIO_SIZE ∧
    GPCLR0 + GPIO_REG_OFFSET pin * 4 = GPCLR0 + pin / 32 * 4 ∧
    GPCLR0 + GPIO_REG_OFFSET pin * 4 < GPIO_SIZE ∧
    GPLEV0 + GPIO_REG_OFFSET pin * 4 = GPLEV0 + pin / 32 * 4 ∧
    GPLEV0 + GPIO_REG_OFFSET pin * 4 < GPIO_SIZE := by
  refine ⟨rfl, ?_, rfl, ?_, ?_, rfl, ?_, ?_, rfl, ?_, rfl, ?_, rfl, ?_⟩ <;>
    (simp only [FSEL_REG, FSEL_SHIFT, GPIO_REG_OFFSET, GPIO_REG_SHIFT, GPFSEL0, GPSET0,
      GPCLR0, GPLEV0, GPIO_SIZE]
     omega)

/-- C4 witness: the codec facts instantiated at pin 35, preceded by the
concrete offsets of the spec scenario for that pin. -/
theorem address_codec_bounds_pin35 :
    (35 < 54 ∧ FSEL_REG 35 = 0xc ∧ FSEL_SHIFT 35 = 15 ∧
      GPLEV0 + GPIO_REG_OFFSET 35 * 4 = 0x38 ∧ GPIO_REG_SHIFT 35 = 3) ∧
    (FSEL_REG 35 = GPFSEL0 + 35 / 10 * 4 ∧
      FSEL_REG 35 % 4 = 0 ∧
      FSEL_SHIFT 35 = 35 % 10 * 3 ∧
      FSEL_SHIFT 35 % 3 = 0 ∧
      FSEL_SHIFT 35 ≤ 27 ∧
      GPIO_REG_SHIFT 35 = 35 % 32 ∧
      GPIO_REG_SHIFT 35 < 32 ∧
      FSEL_REG 35 < GPIO_SIZE ∧
      GPSET0 + GPIO_REG_OFFSET 35 * 4 = GPSET0 + 35 / 32 * 4 ∧
      GPSET0 + GPIO_REG_OFFSET 35 * 4 < GPIO_SIZE ∧
      GPCLR0 + GPIO_REG_OFFSET 35 * 4 = GPCLR0 + 35 / 32 * 4 ∧
      GPCLR0 + GPIO_REG_OFFSET 35 * 4 < GPIO_SIZE ∧
      GPLEV0 + GPIO_REG_OFFSET 35 * 4 = GPLEV0 + 35 / 32 * 4 ∧
      GPLEV0 + GPIO_REG_OFFSET 35 * 4 < GPIO_SIZE) :=
  ⟨by decide, address_codec_bounds 35 (by decide)⟩

/-- C1: evaluation of the code at the failing input.  Transitioning
pin 0 from Alt3 (code 7) to Alt0 (code 4) does perform exactly two
writes to the function-select register, but the word of the first
write encodes the target code 4 in pin 0's field, not Input (0): the
source inserts fsel instead of BCM2835_FSEL_GPIO_IN in the
intermediate glitch-avoidance write. -/
theorem fsel_set_intermediate_write_encodes_target :
    traceOf (bcm2835_pinctrl_fsel_set devAlt 0 4) =
      [Event.read 0, Event.write 0 4, Event.write 0 4] ∧
    fselField (ioAlt.regs (FSEL_REG 0)) 0 = 7 ∧
    fselField 4 0 = 4 ∧
    fselField 4 0 ≠ BCM2835_FSEL_GPIO_IN := by decide

/-- C2: evaluation of the code at the failing input.  set with offset 1
and value true performs no write to the output-set register at all:
it reads and writes function-select register GPFSEL2 (offset 8,
which is FSEL_REG of GPSET0 = 28), setting pin 28's function code
to 1, because the source passes the bank register offset as the pin
and the pin as the function code to bcm2835_pinctrl_fsel_set. -/
theorem set_level_writes_function_select_register :
    (set devZero 1 true).2 = [Event.read 8, Event.write 8 16777216] ∧
    FSEL_REG GPSET0 = 8 ∧
    fselField 16777216 GPSET0 = 1 ∧
    Event.write (GPSET0 + GPIO_REG_OFFSET 1 * 4) (1 <<< GPIO_REG_SHIFT 1) ∉
      (set devZero 1 true).2 := by decide

/-- C3 counterexample: on a device whose register write fails with
error code 5, the underlying bcm2835_pinctrl_fsel_set call made by set
returns that error, yet set completes returning only the unchanged
device and the trace of the single read: the error is discarded, not
reported. -/
theorem set_level_error_not_reported :
    resOf (bcm2835_pinctrl_fsel_set devWriteFail GPSET0 1) = Except.error 5 ∧
    set devWriteFail 1 true = (devWriteFail, [Event.read 8]) :=
  ⟨rfl, rfl⟩

/-- C3 amended: set discards the result of its single underlying
bcm2835_pinctrl_fsel_set attempt, returning only the resulting device
state and trace; it has no error channel and never retries. -/
theorem set_level_discards_underlying_result (d : DeviceData) (pin : Nat) (value : Bool) :
    set d pin value =
      (stateOf (bcm2835_pinctrl_fsel_set d (if value then GPSET0 else GPCLR0) pin),
        traceOf (bcm2835_pinctrl_fsel_set d (if value then GPSET0 else GPCLR0) pin)) := by
  simp only [set, stateOf, traceOf]

/-- C9 amended: with the register window absent every operation
performs no hardware access; direction query, input mode, output mode
and level get fail with ENXIO, while level set swallows the ENXIO of
its underlying call and returns without reporting any error. -/
theorem absent_resources_fail_fast (pin : Nat) (value : Bool) :
    get_direction devAbsent pin = (Except.error ENXIO, devAbsent, []) ∧
    direction_input devAbsent pin = (Except.error ENXIO, devAbsent, []) ∧
    direction_output devAbsent pin value = (Except.error ENXIO, devAbsent, []) ∧
    get devAbsent pin = (Except.error ENXIO, devAbsent, []) ∧
    set devAbsent pin value = (devAbsent, []) :=
  ⟨rfl, rfl, rfl, rfl, rfl⟩

/-- C9 counterexample: with the register window absent, the level-set
operation does not fail with a resource-unavailable error (it returns
no error at all), unlike the specified set_level, which reports ENXIO
on the same input. -/
theorem set_level_absent_resources_no_error :
    set devAbsent 0 true = (devAbsent, []) ∧
    resOf (spec_set_level devAbsent 0 true) = Except.error ENXIO :=
  ⟨rfl, rfl⟩

/-- C5: if the current code of the pin already equals the requested
code, bcm2835_pinctrl_fsel_set returns successfully after only the one
read, leaving the device unchanged; and after any fault-free
bcm2835_pinctrl_fsel_set, repeating the same call leaves the device
state identical and performs no write. -/
theorem fsel_set_idempotent (m : IoMemState) (pin f : Nat) (hp : pin < 54) (hf : f < 8)
    (hre : m.readErr = none) (hwe : m.writeErr = none) :
    (fselField (m.regs (FSEL_REG pin)) pin = f →
      bcm2835_pinctrl_fsel_set ⟨some m⟩ pin f =
        (Except.ok (), ⟨some m⟩, [Event.read (FSEL_REG pin)])) ∧
    bcm2835_pinctrl_fsel_set (stateOf (bcm2835_pinctrl_fsel_set ⟨some m⟩ pin f)) pin f =
      (Except.ok (), stateOf (bcm2835_pinctrl_fsel_set ⟨some m⟩ pin f),
        [Event.read (FSEL_REG pin)]) := by
  have hb := FSEL_REG_bound pin hp
  constructor
  · intro hcur
    rw [fsel_set_run m pin f hb hre hwe, if_pos hcur]
  · rw [fsel_set_run m pin f hb hre hwe]
    by_cases h1 : fselField (m.regs (FSEL_REG pin)) pin = f
    · rw [if_pos h1]
      simp only [stateOf]
      rw [fsel_set_run m pin f hb hre hwe, if_pos h1]
    · rw [if_neg h1]
      by_cases h2 : fselField (m.regs (FSEL_REG pin)) pin ≠ BCM2835_FSEL_GPIO_IN ∧
          f ≠ BCM2835_FSEL_GPIO_IN
      · rw [if_pos h2]
        simp only [stateOf]
        rw [fsel_set_run _ pin f hb (by simp [IoMemState.upd, hre]) (by simp [IoMemState.upd, hwe])]
        have hfld : fselField
            (((m.upd (FSEL_REG pin) (fsel_insert (m.regs (FSEL_REG pin)) pin f)).upd
              (FSEL_REG pin)
              (fsel_insert (fsel_insert (m.regs (FSEL_REG pin)) pin f) pin f)).regs
                (FSEL_REG pin)) pin = f := by
          simp [IoMemState.upd, fselField_fsel_insert _ pin f hf]
        rw [if_pos hfld]
      · rw [if_neg h2]
        simp only [stateOf]
        rw [fsel_set_run _ pin f hb (by simp [IoMemState.upd, hre]) (by simp [IoMemState.upd, hwe])]
        have hfld : fselField
            ((m.upd (FSEL_REG pin) (fsel_insert (m.regs (FSEL_REG pin)) pin f)).regs
              (FSEL_REG pin)) pin = f := by
          simp [IoMemState.upd, fselField_fsel_insert _ pin f hf]
        rw [if_pos hfld]

/-- C5 witness: idempotence instantiated on the all-zero device at
pin 3 with code 7. -/
theorem fsel_set_idempotent_witness :
    (3 < 54 ∧ 7 < 8 ∧ ioZero.readErr = none ∧ ioZero.writeErr = none) ∧
    ((fselField (ioZero.regs (FSEL_REG 3)) 3 = 7 →
      bcm2835_pinctrl_fsel_set ⟨some ioZero⟩ 3 7 =
        (Except.ok (), ⟨some ioZero⟩, [Event.read (FSEL_REG 3)])) ∧
    bcm2835_pinctrl_fsel_set (stateOf (bcm2835_pinctrl_fsel_set ⟨some ioZero⟩ 3 7)) 3 7 =
      (Except.ok (), stateOf (bcm2835_pinctrl_fsel_set ⟨some ioZero⟩ 3 7),
        [Event.read (FSEL_REG 3)])) :=
  ⟨⟨by decide, by decide, rfl, rfl⟩, fsel_set_idempotent ioZero 3 7 (by decide) (by decide) rfl rfl⟩

/-- C6: a fault-free bcm2835_pinctrl_fsel_set succeeds, and afterwards
the function-select word with the pin's own 3-bit field masked out is
unchanged (so the fields of all other pins sharing the word are
untouched), and every register word at any other offset is untouched. -/
theorem fsel_set_isolates_other_fields (m : IoMemState) (pin f off2 : Nat)
    (hp : pin < 54) (hf : f < 8) (hre : m.readErr = none) (hwe : m.writeErr = none)
    (hoff : off2 ≠ FSEL_REG pin) :
    resOf (bcm2835_pinctrl_fsel_set ⟨some m⟩ pin f) = Except.ok () ∧
    DeviceData.reg (stateOf (bcm2835_pinctrl_fsel_set ⟨some m⟩ pin f)) (FSEL_REG pin) &&&
        u32compl (BCM2835_FSEL_MASK <<< FSEL_SHIFT pin) =
      m.regs (FSEL_REG pin) &&& u32compl (BCM2835_FSEL_MASK <<< FSEL_SHIFT pin) ∧
    DeviceData.reg (stateOf (bcm2835_pinctrl_fsel_set ⟨some m⟩ pin f)) off2 = m.regs off2 := by
  have hb := FSEL_REG_bound pin hp
  rw [fsel_set_run m pin f hb hre hwe]
  by_cases h1 : fselField (m.regs (FSEL_REG pin)) pin = f
  · rw [if_pos h1]
    exact ⟨rfl, rfl, rfl⟩
  · rw [if_neg h1]
    by_cases h2 : fselField (m.regs (FSEL_REG pin)) pin ≠ BCM2835_FSEL_GPIO_IN ∧
        f ≠ BCM2835_FSEL_GPIO_IN
    · rw [if_pos h2]
      refine ⟨rfl, ?_, ?_⟩
      · simp [stateOf, DeviceData.reg, IoMemState.upd, masked_fsel_insert _ pin f hf]
      · simp [stateOf, DeviceData.reg, IoMemState.upd, hoff]
    · rw [if_neg h2]
      refine ⟨rfl, ?_, ?_⟩
      · simp [stateOf, DeviceData.reg, IoMemState.upd, masked_fsel_insert _ pin f hf]
      · simp [stateOf, DeviceData.reg, IoMemState.upd, hoff]

/-- C6 witness: isolation instantiated on the device whose words read
0x7, at pin 0 with code 4, checking word offset 4 as the untouched
other offset. -/
theorem fsel_set_isolates_other_fields_witness :
    (0 < 54 ∧ 4 < 8 ∧ ioAlt.readErr = none ∧ ioAlt.writeErr = none ∧ 4 ≠ FSEL_REG 0) ∧
    (resOf (bcm2835_pinctrl_fsel_set ⟨some ioAlt⟩ 0 4) = Except.ok () ∧
    DeviceData.reg (stateOf (bcm2835_pinctrl_fsel_set ⟨some ioAlt⟩ 0 4)) (FSEL_REG 0) &&&
        u32compl (BCM2835_FSEL_MASK <<< FSEL_SHIFT 0) =
      ioAlt.regs (FSEL_REG 0) &&& u32compl (BCM2835_FSEL_MASK <<< FSEL_SHIFT 0) ∧
    DeviceData.reg (stateOf (bcm2835_pinctrl_fsel_set ⟨some ioAlt⟩ 0 4)) 4 = ioAlt.regs 4) :=
  ⟨⟨by decide, by decide, rfl, rfl, by decide⟩,
    fsel_set_isolates_other_fields ioAlt 0 4 4 (by decide) (by decide) rfl rfl (by decide)⟩

/-- C7: with the window attached and reads fault-free, get_direction
fails with ENOTSUPP exactly when the pin's function code exceeds
BCM2835_FSEL_GPIO_OUT, returns In when the code is
BCM2835_FSEL_GPIO_IN, and returns Out when it is
BCM2835_FSEL_GPIO_OUT. -/
theorem get_direction_cases (m : IoMemState) (pin : Nat) (hp : pin < 54)
    (hre : m.readErr = none) :
    (resOf (get_direction ⟨some m⟩ pin) = Except.error ENOTSUPP ↔
      BCM2835_FSEL_GPIO_OUT < fselField (m.regs (FSEL_REG pin)) pin) ∧
    (fselField (m.regs (FSEL_REG pin)) pin = BCM2835_FSEL_GPIO_IN →
      resOf (get_direction ⟨some m⟩ pin) = Except.ok LineDirection.In) ∧
    (fselField (m.regs (FSEL_REG pin)) pin = BCM2835_FSEL_GPIO_OUT →
      resOf (get_direction ⟨some m⟩ pin) = Except.ok LineDirection.Out) := by
  have hb := FSEL_REG_bound pin hp
  simp only [get_direction, bcm2835_pinctrl_fsel_get, bcm2835_gpio_rd, try_readl, hre,
    if_pos hb, resOf]
  by_cases hgt : BCM2835_FSEL_GPIO_OUT < fselField (m.regs (FSEL_REG pin)) pin
  · rw [if_pos hgt]
    refine ⟨by simp [hgt], ?_, ?_⟩
    · intro h0
      rw [h0] at hgt
      exact absurd hgt (by decide)
    · intro h1
      rw [h1] at hgt
      exact absurd hgt (by decide)
  · rw [if_neg hgt]
    by_cases h0 : fselField (m.regs (FSEL_REG pin)) pin = BCM2835_FSEL_GPIO_IN
    · rw [if_pos h0]
      refine ⟨by simp [hgt], fun _ => rfl, ?_⟩
      intro h1
      rw [h0] at h1
      exact absurd h1 (by decide)
    · rw [if_neg h0]
      exact ⟨by simp [hgt], fun h => absurd h h0, fun _ => rfl⟩

/-- C7 witness: get_direction on pin 0 of the device whose words read
0x7, so the code is Alt3 and the call fails with ENOTSUPP. -/
theorem get_direction_cases_witness :
    (0 < 54 ∧ ioAlt.readErr = none) ∧
    ((resOf (get_direction ⟨some ioAlt⟩ 0) = Except.error ENOTSUPP ↔
      BCM2835_FSEL_GPIO_OUT < fselField (ioAlt.regs (FSEL_REG 0)) 0) ∧
    (fselField (ioAlt.regs (FSEL_REG 0)) 0 = BCM2835_FSEL_GPIO_IN →
      resOf (get_direction ⟨some ioAlt⟩ 0) = Except.ok LineDirection.In) ∧
    (fselField (ioAlt.regs (FSEL_REG 0)) 0 = BCM2835_FSEL_GPIO_OUT →
      resOf (get_direction ⟨some ioAlt⟩ 0) = Except.ok LineDirection.Out)) :=
  ⟨⟨by decide, rfl⟩, get_direction_cases ioAlt 0 (by decide) rfl⟩

/-- C10: if the level-bit write of direction_output fails, the call
returns that error with the device state unchanged and an empty access
trace, so the function-select register is never written on that path. -/
theorem direction_output_aborts_on_level_write_failure (m : IoMemState) (pin : Nat)
    (value : Bool) (e : Errno) (hp : pin < 54) (hwe : m.writeErr = some e) :
    direction_output ⟨some m⟩ pin value = (Except.error e, ⟨some m⟩, []) := by
  have hb : (if value then GPSET0 else GPCLR0) + GPIO_REG_OFFSET pin * 4 + 4 ≤ GPIO_SIZE := by
    have hbase : (if value then GPSET0 else GPCLR0) ≤ 40 := by
      cases value <;> simp [GPSET0, GPCLR0]
    have hdiv : GPIO_REG_OFFSET pin ≤ 1 := by
      simp only [GPIO_REG_OFFSET]
      omega
    simp only [GPIO_SIZE]
    omega
  simp [direction_output, bcm2835_gpio_set_bit, bcm2835_gpio_wr, try_writel, hwe, if_pos hb]

/-- Characterization of a fault-free in-bounds register write. -/
theorem gpio_wr_run (m : IoMemState) (reg v : Nat) (hb : reg + 4 ≤ GPIO_SIZE)
    (hwe : m.writeErr = none) :
    bcm2835_gpio_wr ⟨some m⟩ reg v =
      (Except.ok (), ⟨some (m.upd reg v)⟩, [Event.write reg v]) := by
  simp [bcm2835_gpio_wr, try_writel, hwe, if_pos hb]

/-- C8: in every successful run of direction_output, the first hardware
access of the trace is the level-bit write to the set or clear bank
register of the pin, and every write after it goes to the pin's
function-select register: the level is established before any
function-select write. -/
theorem direction_output_level_write_first (d : DeviceData) (pin : Nat) (value : Bool)
    (hok : resOf (direction_output d pin value) = Except.ok ()) :
    (traceOf (direction_output d pin value)).head? =
      some (Event.write ((if value then GPSET0 else GPCLR0) + GPIO_REG_OFFSET pin * 4)
        (1 <<< GPIO_REG_SHIFT pin)) ∧
    writesOnlyTo (FSEL_REG pin) (traceOf (direction_output d pin value)).tail = true := by
  obtain ⟨res⟩ := d
  cases res with
  | none =>
    exfalso
    simp [direction_output, bcm2835_gpio_set_bit, bcm2835_gpio_wr, resOf] at hok
  | some m =>
    by_cases hb1 : (if value then GPSET0 else GPCLR0) + GPIO_REG_OFFSET pin * 4 + 4 ≤ GPIO_SIZE
    · cases hwe : m.writeErr with
      | some e =>
        exfalso
        simp [direction_output, bcm2835_gpio_set_bit, bcm2835_gpio_wr, try_writel,
          hwe, if_pos hb1, resOf] at hok
      | none =>
        by_cases hb2 : FSEL_REG pin + 4 ≤ GPIO_SIZE
        · cases hre : m.readErr with
          | some e =>
            exfalso
            simp [direction_output, bcm2835_gpio_set_bit, gpio_wr_run m _ _ hb1 hwe,
              bcm2835_pinctrl_fsel_set, bcm2835_gpio_rd, try_readl, IoMemState.upd,
              hre, if_pos hb2, resOf] at hok
          | none =>
            have hre1 : (m.upd ((if value then GPSET0 else GPCLR0) + GPIO_REG_OFFSET pin * 4)
                (1 <<< GPIO_REG_SHIFT pin)).readErr = none := by
              simp [IoMemState.upd, hre]
            have hwe1 : (m.upd ((if value then GPSET0 else GPCLR0) + GPIO_REG_OFFSET pin * 4)
                (1 <<< GPIO_REG_SHIFT pin)).writeErr = none := by
              simp [IoMemState.upd, hwe]
            simp only [direction_output, bcm2835_gpio_set_bit, gpio_wr_run m _ _ hb1 hwe,
              fsel_set_run _ pin BCM2835_FSEL_GPIO_OUT hb2 hre1 hwe1, traceOf]
            constructor <;> (repeat' split) <;> simp [writesOnlyTo]
        · exfalso
          simp [direction_output, bcm2835_gpio_set_bit, gpio_wr_run m _ _ hb1 hwe,
            bcm2835_pinctrl_fsel_set, bcm2835_gpio_rd, try_readl, hb2, resOf] at hok
    · exfalso
      simp [direction_output, bcm2835_gpio_set_bit, bcm2835_gpio_wr, try_writel, hb1,
        resOf] at hok

/-- C8 witness: direction_output on the all-zero device at pin 0 with
initial level true succeeds, and its trace starts with the level write. -/
theorem direction_output_level_write_first_witness :
    resOf (direction_output devZero 0 true) = Except.ok () ∧
    ((traceOf (direction_output devZero 0 true)).head? =
      some (Event.write ((if true then GPSET0 else GPCLR0) + GPIO_REG_OFFSET 0 * 4)
        (1 <<< GPIO_REG_SHIFT 0)) ∧
    writesOnlyTo (FSEL_REG 0) (traceOf (direction_output devZero 0 true)).tail = true) :=
  ⟨rfl, direction_output_level_write_first devZero 0 true rfl⟩

/-- C10 witness: direction_output on the device whose writes fail with
error code 5, at pin 7 with initial level false. -/
theorem direction_output_aborts_on_level_write_failure_witness :
    (7 < 54 ∧ ioWriteFail.writeErr = some 5) ∧
    direction_output devWriteFail 7 false = (Except.error 5, devWriteFail, []) :=
  ⟨⟨by decide, rfl⟩,
    direction_output_aborts_on_level_write_failure ioWriteFail 7 false 5 (by decide) rfl⟩

end BCM2835
